import Mathlib

/-!
Shallow embedding of the `amplify-classifier-dojo` repository
(`src/train.py` and `src/heterogenous_ensembles/eval.py`).

Score tensors of shape (N models, M samples, C classes) are modelled as
nested lists of rationals.  The torch reductions used by the evaluation
script (`mean`, `argmax`, `mode`, `squeeze`) are embedded index-wise,
following the source line by line.  Control flow of the two `main`
functions is embedded as ordered traces of the framework calls they make.
-/

namespace Dojo

/-- A 3-d score tensor of shape (N, M, C), as nested lists of rationals. -/
abbrev Tensor3 := List (List (List ℚ))

/-- Embeds `torch.argmax` of a 1-d slice: the index of the first maximal element
(ties resolve to the first occurrence, as torch documents). -/
def argmaxIdx (xs : List ℚ) : ℕ :=
  (xs.enum.foldl (fun best p => if best.2 < p.2 then p else best) (0, xs.headD 0)).1

/-- Embeds `torch.mean(t, dim=0)` on shape (N, M, C): the elementwise mean over the
model dimension, giving shape (M, C). -/
def meanDim0 (t : Tensor3) : List (List ℚ) :=
  (List.range (t.headD []).length).map fun j =>
    (List.range ((t.headD []).headD []).length).map fun c =>
      (t.map fun model => (model.getD j []).getD c 0).sum / (t.length : ℚ)

/-- Embeds `torch.mean(t, dim=0, keepdim=True)`: shape (1, M, C). -/
def meanDim0Keep (t : Tensor3) : Tensor3 := [meanDim0 t]

/-- Embeds `torch.argmax(t, dim=2, keepdim=True)`: shape (N, M, 1). -/
def argmaxDim2Keep (t : Tensor3) : List (List (List ℕ)) :=
  t.map fun mat => mat.map fun row => [argmaxIdx row]

/-- Embeds `torch.mode` of a 1-d slice of class indices: a value occurring most
often; among several such values the smallest is returned (as torch's CPU
implementation does). -/
def modeVal (xs : List ℕ) : ℕ :=
  ((xs.filter fun v => decide (∀ w ∈ xs, xs.count w ≤ xs.count v)).min?).getD 0

/-- Embeds `torch.mode(t, dim=0, keepdim=True)` on shape (N, M, 1): shape (1, M, 1). -/
def modeDim0Keep (t : List (List (List ℕ))) : List (List (List ℕ)) :=
  [(List.range (t.headD []).length).map fun j =>
    (List.range ((t.headD []).headD []).length).map fun c =>
      modeVal (t.map fun model => (model.getD j []).getD c 0)]

/-- Embeds `torch.squeeze` specialised to a rational tensor of shape (1, M, C) with
`M, C ≥ 2`: only the leading singleton dimension is dropped. -/
def squeeze_1MC (t : Tensor3) : List (List ℚ) := t.headD []

/-- Embeds `torch.squeeze` specialised to an index tensor of shape (1, M, 1) with
`M ≥ 2`: both singleton dimensions are dropped, giving shape (M,). -/
def squeeze_1M1 (t : List (List (List ℕ))) : List ℕ :=
  (t.headD []).map fun row => row.headD 0

/-- eval.py lines 185-188 (SOFTVOTING): mean over the model dimension with
`keepdim=True`, argmax over the class dimension with `keepdim=True`, then
`torch.squeeze`. -/
def softvoting_classes (scores_per_model : Tensor3) : List ℕ :=
  squeeze_1M1 (argmaxDim2Keep (meanDim0Keep scores_per_model))

/-- eval.py lines 193-196 (HARDVOTING): per-model argmax over the class
dimension with `keepdim=True`, `torch.mode` over the model dimension with
`keepdim=True`, then `torch.squeeze`. -/
def hardvoting_classes (scores_per_model : Tensor3) : List ℕ :=
  squeeze_1M1 (modeDim0Keep (argmaxDim2Keep scores_per_model))

/-- The stacked scores have shape (N, M, C). -/
abbrev hasShape (t : Tensor3) (N M C : ℕ) : Prop :=
  t.length = N ∧ (∀ m ∈ t, m.length = M) ∧ ∀ m ∈ t, ∀ r ∈ m, r.length = C

/-- Every per-sample row of the tensor is a softmax probability
distribution: nonnegative entries summing to 1. -/
abbrev isProbTensor (t : Tensor3) : Prop :=
  ∀ m ∈ t, ∀ r ∈ m, (∀ x ∈ r, 0 ≤ x) ∧ r.sum = 1


lemma softvoting_eq_map_argmax (scores : Tensor3) :
    softvoting_classes scores = (meanDim0 scores).map argmaxIdx := by
  simp [softvoting_classes, squeeze_1M1, argmaxDim2Keep, meanDim0Keep, List.map_map,
    Function.comp]

lemma headD_mem_of_ne_nil {α : Type} {l : List α} (h : l ≠ []) (d : α) : l.headD d ∈ l := by
  cases l with
  | nil => exact absurd rfl h
  | cons a t => simp

/-- Claim C1: soft voting.  For a stacked score tensor of shape (N, M, C)
whose rows are probability distributions, the soft-voting prediction of
sample `j` is the argmax over classes of the elementwise mean over the N
models of their per-class probability vectors for sample `j`. -/
theorem softvoting_is_argmax_of_mean (scores : Tensor3) (N M C j : ℕ)
    (hN : 1 ≤ N) (hM : 2 ≤ M) (hshape : hasShape scores N M C)
    (hprob : isProbTensor scores) (hj : j < M) :
    (softvoting_classes scores)[j]? =
      some (argmaxIdx ((List.range C).map fun c =>
        (scores.map fun model => (model.getD j []).getD c 0).sum / (N : ℚ))) := by
  obtain ⟨hlen, hrows, hcols⟩ := hshape
  have hne : scores ≠ [] := by
    intro h
    rw [h] at hlen
    simp at hlen
    omega
  have h0 : scores.headD [] ∈ scores := headD_mem_of_ne_nil hne []
  have hM' : (scores.headD []).length = M := hrows _ h0
  have hne0 : scores.headD [] ≠ [] := by
    intro h
    rw [h] at hM'
    simp at hM'
    omega
  have h00 : (scores.headD []).headD [] ∈ scores.headD [] := headD_mem_of_ne_nil hne0 []
  have hC' : ((scores.headD []).headD []).length = C := hcols _ h0 _ h00
  rw [softvoting_eq_map_argmax, List.getElem?_map, meanDim0, hM', hC', hlen,
    List.getElem?_map, List.getElem?_range hj]
  rfl


/-- Claim C10: the class predictions fed to the soft confusion matrix (the
squeezed argmax of the averaged scores, eval.py line 187-188) are the
per-sample argmax of the squeezed averaged tensor passed to the soft
F1/recall/accuracy/precision metrics (eval.py line 211). -/
theorem soft_confusion_matches_soft_metrics (scores : Tensor3) (N M C j : ℕ)
    (hN : 1 ≤ N) (hM : 2 ≤ M) (hC : 2 ≤ C) (hshape : hasShape scores N M C)
    (hprob : isProbTensor scores) :
    (softvoting_classes scores)[j]? =
      ((squeeze_1MC (meanDim0Keep scores))[j]?).map argmaxIdx := by
  rw [softvoting_eq_map_argmax, List.getElem?_map]
  rfl

/-- Claim C2: hard voting.  For a stacked score tensor of shape (N, M, C),
the hard-voting prediction of sample `j` is the mode over the N models of
the per-model argmax classes for sample `j`. -/
theorem hardvoting_is_mode_of_argmax (scores : Tensor3) (N M C j : ℕ)
    (hN : 1 ≤ N) (hM : 2 ≤ M) (hshape : hasShape scores N M C) (hj : j < M) :
    (hardvoting_classes scores)[j]? =
      some (modeVal (scores.map fun model => argmaxIdx (model.getD j []))) := by
  obtain ⟨hlen, hrows, hcols⟩ := hshape
  have hne : scores ≠ [] := by
    intro h
    rw [h] at hlen
    simp at hlen
    omega
  have hM' : (scores.headD []).length = M := hrows _ (headD_mem_of_ne_nil hne [])
  have hne0 : scores.headD [] ≠ [] := by
    intro h
    rw [h] at hM'
    simp at hM'
    omega
  have hhead : (argmaxDim2Keep scores).headD [] =
      (scores.headD []).map (fun row => [argmaxIdx row]) := by
    cases scores with
    | nil => exact absurd rfl hne
    | cons a t => rfl
  have hhead2 : ((argmaxDim2Keep scores).headD []).headD [] =
      [argmaxIdx ((scores.headD []).headD [])] := by
    rw [hhead]
    cases h : scores.headD [] with
    | nil => exact absurd h hne0
    | cons r rs => rfl
  rw [hardvoting_classes, modeDim0Keep, hhead2, hhead]
  simp only [List.length_map, hM', List.length_cons, List.length_nil]
  simp only [squeeze_1M1, List.headD_cons, List.map_map, List.getElem?_map,
    List.getElem?_range hj, Option.map_some', Function.comp]
  have hr1 : List.range 1 = [0] := rfl
  simp only [hr1, List.map_cons, List.map_nil, Function.comp,
    List.headD_cons, Option.some.injEq]
  refine congrArg modeVal ?_
  rw [argmaxDim2Keep, List.map_map]
  refine List.map_congr_left fun model hmem => ?_
  have hjm : j < model.length := by rw [hrows model hmem]; exact hj
  simp only [Function.comp]
  simp only [List.getD_eq_getElem?_getD, List.getElem?_map, List.getElem?_eq_getElem hjm,
    Option.map_some', Option.getD_some]
  rfl


/-- A concrete stacked score tensor: 2 models, 2 samples, 3 classes. -/
def sampleScores : Tensor3 :=
  [[[1/2, 1/2, 0], [1, 0, 0]], [[1/4, 3/4, 0], [0, 1, 0]]]

/-- Witness for claim C1 at `sampleScores`. -/
theorem softvoting_is_argmax_of_mean_instance :
    hasShape sampleScores 2 2 3 ∧ isProbTensor sampleScores ∧
    (softvoting_classes sampleScores)[0]? =
      some (argmaxIdx ((List.range 3).map fun c =>
        (sampleScores.map fun model => (model.getD 0 []).getD c 0).sum / ((2 : ℕ) : ℚ))) :=
  ⟨by decide, (by
      simp only [sampleScores, isProbTensor, List.forall_mem_cons, List.forall_mem_nil,
        List.sum_cons, List.sum_nil]
      norm_num),
    softvoting_is_argmax_of_mean sampleScores 2 2 3 0 (by decide) (by decide)
      (by decide) (by
      simp only [sampleScores, isProbTensor, List.forall_mem_cons, List.forall_mem_nil,
        List.sum_cons, List.sum_nil]
      norm_num) (by decide)⟩

/-- Witness for claim C2 at `sampleScores`. -/
theorem hardvoting_is_mode_of_argmax_instance :
    hasShape sampleScores 2 2 3 ∧
    (hardvoting_classes sampleScores)[0]? =
      some (modeVal (sampleScores.map fun model => argmaxIdx (model.getD 0 []))) :=
  ⟨by decide,
    hardvoting_is_mode_of_argmax sampleScores 2 2 3 0 (by decide) (by decide)
      (by decide) (by decide)⟩

/-- Witness for claim C10 at `sampleScores`. -/
theorem soft_confusion_matches_soft_metrics_instance :
    hasShape sampleScores 2 2 3 ∧
    (softvoting_classes sampleScores)[1]? =
      ((squeeze_1MC (meanDim0Keep sampleScores))[1]?).map argmaxIdx :=
  ⟨by decide,
    soft_confusion_matches_soft_metrics sampleScores 2 2 3 1 (by decide) (by decide)
      (by decide) (by decide) (by
      simp only [sampleScores, isProbTensor, List.forall_mem_cons, List.forall_mem_nil,
        List.sum_cons, List.sum_nil]
      norm_num)⟩


/-! ## Metrics and tracker logging (eval.py lines 199-237)

The METRICS block builds a `ModuleDict` of torchmetrics objects keyed by
statistic, averaging mode and voting strategy, updates and computes only
the SOFT-voting ones (the HARD `update`/`compute`/`track` calls are
commented out in the source), and sends `track`/`fig_log2aim` events to
the Aim experiment tracker. -/

/-- A metric statistic of the METRICS loop (eval.py line 203). -/
inductive Stat
  | f1 | recall | accuracy | precision
deriving DecidableEq

/-- A torchmetrics aggregation mode; `average=None` (per-class output) is
modelled as `Option.none` below, as in the loop over
`['weighted','micro','macro',None]` (eval.py line 202). -/
inductive Averaging
  | Weighted | Micro | Macro
deriving DecidableEq

/-- Voting ensembling strategy. -/
inductive Voting
  | soft | hard
deriving DecidableEq

/-- The two ensembling strategies of the script. -/
def votingStrategies : List Voting := [.soft, .hard]

/-- A key of the `torch.nn.ModuleDict` of metrics, e.g. `'f1_macro_SOFT'`
or `'confusion_matrix_SOFT'` (eval.py lines 205-206, 226). -/
inductive MetricKey
  | statKey (stat : Stat) (averaging : Option Averaging) (voting : Voting)
  | confusionKey (voting : Voting)
deriving DecidableEq

/-- The averaging modes iterated by the METRICS loop (eval.py line 202). -/
def averagingModes : List (Option Averaging) := [some .Weighted, some .Micro, some .Macro, none]

/-- The statistics iterated by the METRICS loop (eval.py line 203). -/
def statsLoop : List Stat := [.f1, .recall, .accuracy, .precision]

/-- The metric objects constructed (eval.py lines 207-208 and 226): a HARD
and a SOFT object per mode and statistic, plus the SOFT confusion matrix
(the HARD confusion matrix construction is commented out). -/
def constructedMetricKeys : List MetricKey :=
  (averagingModes.flatMap fun mode => statsLoop.flatMap fun stat =>
    [.statKey stat mode .hard, .statKey stat mode .soft]) ++ [.confusionKey .soft]

/-- The metric objects actually updated and computed over the ensemble
predictions (eval.py lines 211-212 and 228-229): only the SOFT ones; the
HARD `update`/`compute` calls at lines 209-210 and 227 are commented out. -/
def computedMetricKeys : List MetricKey :=
  (averagingModes.flatMap fun mode => statsLoop.map fun stat =>
    MetricKey.statKey stat mode .soft) ++ [.confusionKey .soft]

/-- An event sent to the experiment tracker: a `logger.experiment.track`
call of a metric value, or a `fig_log2aim` figure upload, each carrying a
`voting_ensemble` context tag. -/
inductive TrackEvent
  | track (stat : Stat) (averaging : Averaging) (voting : Voting)
  | figure (name : String) (voting : Voting)
deriving DecidableEq

/-- The ordered tracker events emitted by the METRICS block (eval.py
lines 215, 222-223 and 236-237): per aggregated mode a SOFT `track` per
statistic; for `average=None` a SOFT per-class F1 bar-plot figure; finally
the SOFT normalized confusion-matrix figure.  All the corresponding HARD
calls (lines 214, 218, 220-221, 227, 230-231, 234-235) are commented out
in the source. -/
def metricsLogEvents : List TrackEvent :=
  (averagingModes.flatMap fun mode => statsLoop.flatMap fun stat =>
    match mode with
    | some avg => [.track stat avg .soft]
    | none => if stat = Stat.f1 then [.figure "f1_perclass" .soft] else []) ++
  [.figure "confusion_matrix" .soft]

/-- The `voting_ensemble` context tag of a tracker event. -/
def eventVoting : TrackEvent → Voting
  | .track _ _ v => v
  | .figure _ v => v

/-- Is this a metric-value `track` call with the given voting tag? -/
def isTrackFor (v : Voting) : TrackEvent → Bool
  | .track _ _ w => w == v
  | .figure _ _ => false

/-- Is this a figure upload with the given voting tag? -/
def isFigureFor (v : Voting) : TrackEvent → Bool
  | .figure _ w => w == v
  | .track _ _ _ => false

/-- Claim C3, counterexample: it is NOT the case that, for each of the two
voting strategies, metric values are tracked and figures are logged: no
event with the `hard` tag is ever emitted (all HARD logging is commented
out in eval.py). -/
theorem both_strategies_logged_refuted :
    ¬ ∀ v ∈ votingStrategies, (∃ e ∈ metricsLogEvents, isTrackFor v e) ∧
      (∃ e ∈ metricsLogEvents, isFigureFor v e) := by decide

/-- Claim C3, amended: every successful run logs metrics and plots for the
soft-voting ensemble only: soft metric values are tracked, soft figures
are logged, and every emitted event carries the `soft` tag. -/
theorem only_soft_strategy_logged :
    (∃ e ∈ metricsLogEvents, isTrackFor .soft e) ∧
    (∃ e ∈ metricsLogEvents, isFigureFor .soft e) ∧
    ∀ e ∈ metricsLogEvents, eventVoting e = .soft := by decide

/-- Claim C4: the metric set computed over the ensemble predictions is
precision, recall, F1 and accuracy, each under weighted, micro and macro
averaging and per class (`average=None`), plus a confusion matrix. -/
theorem computed_metric_set_exact :
    (∀ s ∈ statsLoop, ∀ a ∈ averagingModes,
      MetricKey.statKey s a .soft ∈ computedMetricKeys) ∧
    MetricKey.confusionKey .soft ∈ computedMetricKeys ∧
    ∀ k ∈ computedMetricKeys,
      (∃ s ∈ statsLoop, ∃ a ∈ averagingModes, k = MetricKey.statKey s a .soft) ∨
        k = MetricKey.confusionKey .soft := by
  decide

/-! ## train.py: loss-function configuration (lines 189-210)

Here `setup_model_and_datamodule` assembles the `loss_kwargs` dict from the CLI
flags and passes it to `MulticlassClassifier`.  Python truthiness of
`args.loss_weights_tensor` (`None` or a torch tensor) and Python `any()`
are embedded with their actual error behaviour. -/

/-- A Python error raised by an embedded fragment. -/
inductive PyErr
  | typeError | runtimeError | keyError
deriving DecidableEq

/-- The two values of `--loss-function` (train.py line 81). -/
inductive LossFunction
  | crossEntropyLoss | focalLoss
deriving DecidableEq

/-- A value stored in the `loss_kwargs` dict. -/
inductive KwargVal
  | num (q : ℚ)
  | tensor (t : List ℚ)
deriving DecidableEq

/-- A Python keyword-argument dict, as an ordered association list. -/
abbrev Kwargs := List (String × KwargVal)

/-- Python truthiness of `args.loss_weights_tensor` (train.py line 192):
`None` is falsy; `bool()` of a torch tensor is its sole element's
truthiness when it has exactly one element and raises `RuntimeError`
otherwise. -/
def tensorTruthy : Option (List ℚ) → Except PyErr Bool
  | none => .ok false
  | some [x] => .ok (decide (x ≠ 0))
  | some _ => .error .runtimeError

/-- Python `any(args.loss_weights_tensor)` (train.py line 196): raises
`TypeError` on `None` (not iterable); on a 1-d tensor, true iff some
element is nonzero. -/
def pyAnyTensor : Option (List ℚ) → Except PyErr Bool
  | none => .error .typeError
  | some xs => .ok (xs.any fun x => decide (x ≠ 0))

/-- train.py lines 189-197: assembly of the `loss_kwargs` dict. -/
def build_loss_kwargs (loss_function : LossFunction) (loss_smoothing loss_gamma : ℚ)
    (loss_weights_tensor : Option (List ℚ)) : Except PyErr Kwargs :=
  match loss_function with
  | .crossEntropyLoss => do
      let w ← tensorTruthy loss_weights_tensor
      .ok (("label_smoothing", KwargVal.num loss_smoothing) ::
        (if w then [("weights", KwargVal.tensor (loss_weights_tensor.getD []))] else []))
  | .focalLoss => do
      let w ← pyAnyTensor loss_weights_tensor
      .ok (("gamma", KwargVal.num loss_gamma) ::
        (if w then [("alpha", KwargVal.tensor (loss_weights_tensor.getD []))] else []))

/-- The loss-related constructor arguments of the `MulticlassClassifier`
call (train.py lines 201-210). -/
structure ClassifierLossConfig where
  loss_function : LossFunction
  loss_kwargs : Kwargs
deriving DecidableEq

/-- train.py lines 189-210: builds the loss kwargs and passes them to the
`MulticlassClassifier` lightning module; fails when the kwargs assembly
raises. -/
def setup_classifier_loss (loss_function : LossFunction) (loss_smoothing loss_gamma : ℚ)
    (loss_weights_tensor : Option (List ℚ)) : Except PyErr ClassifierLossConfig := do
  let kw ← build_loss_kwargs loss_function loss_smoothing loss_gamma loss_weights_tensor
  .ok ⟨loss_function, kw⟩

/-- Claim C6, failing input (code bug): with `--loss-function FocalLoss`
and no loss-weights tensor configured (the default), line 196
`any(args.loss_weights_tensor)` is `any(None)` and raises `TypeError`, so
no `loss_kwargs` containing `gamma` is ever built or passed to the
classifier, for every value of the other loss flags. -/
theorem focal_loss_default_weights_type_error :
    setup_classifier_loss .focalLoss 0 1 none = .error .typeError ∧
    (∀ loss_smoothing loss_gamma : ℚ,
      setup_classifier_loss .focalLoss loss_smoothing loss_gamma none = .error .typeError) ∧
    (∀ loss_smoothing : ℚ,
      setup_classifier_loss .crossEntropyLoss loss_smoothing 1 none =
        .ok ⟨.crossEntropyLoss, [("label_smoothing", KwargVal.num loss_smoothing)]⟩) :=
  ⟨rfl, fun _ _ => rfl, fun _ => rfl⟩

/-! ## train.py: `setup_aimlogger` (lines 214-247) and the two `main`s

The logger factory builds an env-var logger and/or a CLI-args logger; the
two `main` functions assert that it returned something.  `train.py main`
calls `setup_model_and_datamodule` (which constructs the
`MulticlassClassifier`) at line 254, BEFORE the logger setup and assertion
at lines 262-263; `eval.py main` runs the assertion (line 150) before any
model is loaded. -/

/-- Python truthiness of an optional string (`if args.x:`, or
`'X' in os.environ and os.environ['X']`). -/
def truthyStr : Option String → Bool
  | none => false
  | some s => s ≠ ""

/-- The Aim-related CLI arguments shared by train.py and eval.py. -/
structure AimArgs where
  repo : Option String
  artifacts_location : Option String
  note : Option String
  experiment : Option String
  run : Option String
deriving DecidableEq

/-- The environment variables read by `setup_aimlogger`. -/
structure EnvVars where
  aim_repo : Option String
  aim_artifacts_uri : Option String
deriving DecidableEq

/-- An `AimLogger` as observable through `setup_aimlogger`: its repo, the
artifacts URI set on it (if any), and its description note (if any). -/
structure AimLoggerModel where
  repo : String
  artifacts_uri : Option String
  description : Option String
deriving DecidableEq

/-- What `setup_aimlogger` returns when it does not return `None`: a single
`AimLogger`, or the list `[args_logger, env_logger]` when both exist. -/
inductive LoggerResult
  | single (l : AimLoggerModel)
  | pair (args_logger env_logger : AimLoggerModel)
deriving DecidableEq

/-- train.py lines 225-229: the logger built from the `AIM_REPO`
environment variable, when that variable is set and non-empty. -/
def mkEnvLogger (args : AimArgs) (env : EnvVars) : Option AimLoggerModel :=
  if truthyStr env.aim_repo then
    some { repo := env.aim_repo.getD "",
           artifacts_uri := if truthyStr env.aim_artifacts_uri then env.aim_artifacts_uri else none,
           description := if truthyStr args.note then args.note else none }
  else none

/-- train.py lines 231-235: the logger built from `--repo`, when that
argument is truthy. -/
def mkArgsLogger (args : AimArgs) : Option AimLoggerModel :=
  if truthyStr args.repo then
    some { repo := args.repo.getD "",
           artifacts_uri := if truthyStr args.artifacts_location then args.artifacts_location else none,
           description := if truthyStr args.note then args.note else none }
  else none

/-- train.py lines 214-247: `setup_aimlogger`.  Returns `none` exactly when
neither logger could be created; the code then emits the warning
`'NO AIM LOGGERS CREATED'` and falls through, returning Python `None`. -/
def setup_aimlogger (args : AimArgs) (env : EnvVars) : Option LoggerResult :=
  match mkArgsLogger args, mkEnvLogger args env with
  | some a, some e => some (.pair a e)
  | some a, none => some (.single a)
  | none, some e => some (.single e)
  | none, none => none

/-- An observable step of `train.py main` (lines 250-359).  Callback
construction and artifact uploads make no trainer `fit`/`test` calls and
are elided from the trace. -/
inductive TrainEvent
  | assemble_model      -- `setup_model_and_datamodule(args)`, line 254
  | logger_warning      -- `warnings.warn('NO AIM LOGGERS CREATED')`, line 243
  | assertion_failure   -- `assert logger is not None`, line 263
  | tuner_scale         -- `tuner.scale_batch_size(...)`, line 332
  | trainer_fit         -- `trainer.fit(...)`, line 347
  | trainer_test        -- `trainer.test(...)`, line 351
deriving DecidableEq

/-- The train.py CLI arguments that steer the trace of `main`. -/
structure TrainArgs where
  aim : AimArgs
  testlist : Option String
  autobatch : Bool
deriving DecidableEq

/-- train.py `main` (lines 250-359) as the ordered trace of its framework
calls: the model and datamodule are assembled first (line 254), then the
logger is set up and asserted non-`None` (lines 262-263); on success the
optional batch-size tuning runs, `trainer.fit` is called (line 347), and
`trainer.test` is called iff `args.testlist` is truthy (lines 350-351). -/
def train_main_events (args : TrainArgs) (env : EnvVars) : List TrainEvent :=
  TrainEvent.assemble_model ::
    match setup_aimlogger args.aim env with
    | none => [.logger_warning, .assertion_failure]
    | some _ =>
      (if args.autobatch then [TrainEvent.tuner_scale] else []) ++
      [TrainEvent.trainer_fit] ++
      (if truthyStr args.testlist then [TrainEvent.trainer_test] else [])

/-- An observable step of eval.py `main` (lines 140-239).  The ensembling
arithmetic is modelled separately by `softvoting_classes` and
`hardvoting_classes`; tracker logging by `metricsLogEvents`. -/
inductive EvalEvent
  | logger_warning      -- warning inside `setup_aimlogger`
  | assertion_failure   -- `assert logger is not None`, line 150
  | load_model          -- `load_model(model_designator)`, line 159
  | log_event (e : TrackEvent)
deriving DecidableEq

/-- The eval.py CLI arguments that steer the trace of `main`. -/
structure EvalArgs where
  aim : AimArgs
  models : List String
deriving DecidableEq

/-- eval.py `main` (lines 140-239) as the ordered trace of its framework
calls: the logger is set up and asserted non-`None` first (lines 149-150);
on success each entry of `args.models` is loaded and run (lines 158-175)
and the metric events are sent to the tracker (lines 199-237). -/
def eval_main_events (args : EvalArgs) (env : EnvVars) : List EvalEvent :=
  match setup_aimlogger args.aim env with
  | none => [.logger_warning, .assertion_failure]
  | some _ =>
    (args.models.map fun _ => EvalEvent.load_model) ++
    (metricsLogEvents.map EvalEvent.log_event)

/-- Aim arguments with nothing set. -/
def noAimArgs : AimArgs := ⟨none, none, none, none, none⟩

/-- Environment with no Aim variables. -/
def noEnv : EnvVars := ⟨none, none⟩

/-- Train arguments whose `--testlist` is provided as the empty string. -/
def emptyTestlistArgs : TrainArgs :=
  { aim := { noAimArgs with repo := some "aim_repo" }, testlist := some "", autobatch := false }

/-- Claim C5, counterexample: on a successful run whose `--testlist` was
provided as the empty string, `trainer.fit` runs once but `trainer.test`
is never called, although the `--testlist` argument was provided — line
350 tests Python truthiness, not presence. -/
theorem testlist_provided_but_test_skipped :
    emptyTestlistArgs.testlist ≠ none ∧
    setup_aimlogger emptyTestlistArgs.aim noEnv ≠ none ∧
    (train_main_events emptyTestlistArgs noEnv).count TrainEvent.trainer_fit = 1 ∧
    TrainEvent.trainer_test ∉ train_main_events emptyTestlistArgs noEnv := by decide

/-- Claim C5, amended: on every successful invocation of train.py `main`
(one where the logger assertion passes), `trainer.fit` is called exactly
once, and `trainer.test` is called iff `--testlist` was provided with a
non-empty value. -/
theorem fit_once_and_test_iff_truthy_testlist (args : TrainArgs) (env : EnvVars)
    (hlog : setup_aimlogger args.aim env ≠ none) :
    (train_main_events args env).count TrainEvent.trainer_fit = 1 ∧
    (TrainEvent.trainer_test ∈ train_main_events args env ↔
      truthyStr args.testlist = true) := by
  rcases hsetup : setup_aimlogger args.aim env with _ | r
  · exact absurd hsetup hlog
  · rw [train_main_events, hsetup]
    cases args.autobatch <;> cases htl : truthyStr args.testlist <;>
      simp [List.count_cons, List.count_append]

/-- Witness for the amended claim C5 at a concrete successful invocation
with a non-empty `--testlist`. -/
theorem fit_once_and_test_iff_truthy_testlist_instance :
    (train_main_events
        ⟨{ noAimArgs with repo := some "aim_repo" }, some "test.list", true⟩ noEnv).count
      TrainEvent.trainer_fit = 1 ∧
    (TrainEvent.trainer_test ∈
        train_main_events
          ⟨{ noAimArgs with repo := some "aim_repo" }, some "test.list", true⟩ noEnv ↔
      truthyStr (some "test.list") = true) :=
  fit_once_and_test_iff_truthy_testlist
    ⟨{ noAimArgs with repo := some "aim_repo" }, some "test.list", true⟩ noEnv (by decide)

/-- Train arguments with no Aim repo configured anywhere. -/
def noRepoTrainArgs : TrainArgs := ⟨noAimArgs, none, false⟩

lemma mkArgsLogger_eq_none_iff (a : AimArgs) :
    mkArgsLogger a = none ↔ truthyStr a.repo = false := by
  unfold mkArgsLogger
  cases h : truthyStr a.repo <;> simp [h]

lemma mkEnvLogger_eq_none_iff (a : AimArgs) (env : EnvVars) :
    mkEnvLogger a env = none ↔ truthyStr env.aim_repo = false := by
  unfold mkEnvLogger
  cases h : truthyStr env.aim_repo <;> simp [h]

/-- Claim C9, counterexample: with neither `--repo` nor `AIM_REPO` set,
train.py `main` does abort at the logger assertion, but only AFTER
`setup_model_and_datamodule` has constructed the model (line 254 precedes
lines 262-263), contradicting "fails at an assertion before any model is
constructed". -/
theorem model_assembled_before_logger_assertion :
    setup_aimlogger noAimArgs noEnv = none ∧
    train_main_events noRepoTrainArgs noEnv =
      [TrainEvent.assemble_model, TrainEvent.logger_warning, TrainEvent.assertion_failure] ∧
    (train_main_events noRepoTrainArgs noEnv).indexOf TrainEvent.assemble_model <
      (train_main_events noRepoTrainArgs noEnv).indexOf TrainEvent.assertion_failure := by
  decide

/-- Claim C9, amended: when neither `--repo` is truthy nor a non-empty
`AIM_REPO` exists, `setup_aimlogger` returns `None` (after warning); the
evaluation `main` then fails at its assertion before any model is loaded
or evaluated, while the training `main` fails at its assertion after the
model and datamodule are assembled but before any fit or test.
Conversely, if at least one of the two is set (non-empty), a logger is
returned — a pair `[args_logger, env_logger]` when both are. -/
theorem aimlogger_presence_and_abort (a : AimArgs) (env : EnvVars) :
    (truthyStr a.repo = false → truthyStr env.aim_repo = false →
      setup_aimlogger a env = none ∧
      (∀ targs : TrainArgs, targs.aim = a →
        train_main_events targs env =
          [.assemble_model, .logger_warning, .assertion_failure]) ∧
      (∀ eargs : EvalArgs, eargs.aim = a →
        eval_main_events eargs env = [.logger_warning, .assertion_failure])) ∧
    ((truthyStr a.repo = true ∨ truthyStr env.aim_repo = true) →
      ∃ r, setup_aimlogger a env = some r) ∧
    (truthyStr a.repo = true → truthyStr env.aim_repo = true →
      ∃ la le, setup_aimlogger a env = some (.pair la le)) := by
  refine ⟨?_, ?_, ?_⟩
  · intro h1 h2
    have hA : mkArgsLogger a = none := (mkArgsLogger_eq_none_iff a).mpr h1
    have hE : mkEnvLogger a env = none := (mkEnvLogger_eq_none_iff a env).mpr h2
    have hnone : setup_aimlogger a env = none := by
      unfold setup_aimlogger
      rw [hA, hE]
    refine ⟨hnone, ?_, ?_⟩
    · intro targs ht
      unfold train_main_events
      rw [ht, hnone]
    · intro eargs he
      unfold eval_main_events
      rw [he, hnone]
  · intro h
    have hne : ¬ (mkArgsLogger a = none ∧ mkEnvLogger a env = none) := by
      rintro ⟨hA, hE⟩
      rw [mkArgsLogger_eq_none_iff] at hA
      rw [mkEnvLogger_eq_none_iff] at hE
      rcases h with h | h <;> simp_all
    cases hA : mkArgsLogger a <;> cases hE : mkEnvLogger a env
    · exact absurd ⟨hA, hE⟩ hne
    · exact ⟨_, by unfold setup_aimlogger; rw [hA, hE]⟩
    · exact ⟨_, by unfold setup_aimlogger; rw [hA, hE]⟩
    · exact ⟨_, by unfold setup_aimlogger; rw [hA, hE]⟩
  · intro h1 h2
    have hA : mkArgsLogger a ≠ none := by
      rw [Ne, mkArgsLogger_eq_none_iff, h1]
      simp
    have hE : mkEnvLogger a env ≠ none := by
      rw [Ne, mkEnvLogger_eq_none_iff, h2]
      simp
    rcases Option.ne_none_iff_exists'.mp hA with ⟨la, hla⟩
    rcases Option.ne_none_iff_exists'.mp hE with ⟨le, hle⟩
    exact ⟨la, le, by unfold setup_aimlogger; rw [hla, hle]⟩

/-- Witness for the amended claim C9 at concrete inputs: no logger with
nothing set; a logger when `--repo` is set. -/
theorem aimlogger_presence_and_abort_instance :
    setup_aimlogger noAimArgs noEnv = none ∧
    (∃ r, setup_aimlogger { noAimArgs with repo := some "aim_repo" } noEnv = some r) :=
  ⟨((aimlogger_presence_and_abort noAimArgs noEnv).1 (by decide) (by decide)).1,
   (aimlogger_presence_and_abort { noAimArgs with repo := some "aim_repo" } noEnv).2.1
     (Or.inl (by decide))⟩

/-! ## eval.py: ground-truth label consistency (lines 164-178) -/

/-- eval.py line 177: `assert torch.equal(labels_per_model[0],
labels_per_model[-1])` — compares only the first and the last collected
label tensors. -/
def labels_check (labels_per_model : List (List ℕ)) : Bool :=
  labels_per_model.headD [] == (labels_per_model.getLast?).getD []

/-- eval.py line 178: `true_labels = labels_per_model[0]`. -/
def ensemble_true_labels (labels_per_model : List (List ℕ)) : List ℕ :=
  labels_per_model.headD []

/-- Claim C8: the label-consistency check passes iff the first and last
label tensors agree; the first tensor is then used as the true labels; and
the check passes with ANY intermediate label tensor in between, so
intermediate models' labels are never compared. -/
theorem labels_check_first_last_only (ls : List (List ℕ)) (h : ls ≠ []) :
    (labels_check ls = true ↔ ls.getLast? = some (ls.headD [])) ∧
    ensemble_true_labels ls = ls.headD [] ∧
    ∀ mid : List ℕ, labels_check [ls.headD [], mid, ls.headD []] = true := by
  refine ⟨?_, rfl, ?_⟩
  · rw [labels_check, List.getLast?_eq_getLast_of_ne_nil h]
    simp only [Option.getD_some, beq_iff_eq, Option.some.injEq]
    exact eq_comm
  · intro mid
    rw [labels_check]
    have hlast : ([ls.headD [], mid, ls.headD []].getLast?) = some (ls.headD []) := rfl
    rw [hlast]
    simp

/-- Witness for claim C8 at three label tensors whose middle one differs
from the (equal) first and last. -/
theorem labels_check_first_last_only_instance :
    ((labels_check [[0], [1], [0]] = true ↔
        List.getLast? [[0], [1], [0]] = some (List.headD [[0], [1], [0]] [])) ∧
      ensemble_true_labels [[0], [1], [0]] = List.headD [[0], [1], [0]] [] ∧
      ∀ mid : List ℕ,
        labels_check [List.headD [[0], [1], [0]] [], mid, List.headD [[0], [1], [0]] []] =
          true) ∧
    [[0], [1], [0]] ≠ ([[0], [0], [0]] : List (List ℕ)) ∧
    labels_check [[0], [1], [0]] = true :=
  ⟨labels_check_first_last_only [[0], [1], [0]] (by decide), by decide, by decide⟩

/-! ## eval.py: `load_model` (lines 105-137)

Here `load_model` first delegates to the framework's
`MulticlassClassifier.load_from_checkpoint`; if that raises, it loads the
raw checkpoint with `torch.load`, renames/prunes its `hyper_parameters`
dict when the `model_name` key is absent, reconstructs the classifier
module from those hyperparameters, loads its state dict, and returns the
inner model with resize/to-image/to-dtype base transforms.  Python dicts
are modelled as ordered association lists with unique keys. -/

/-- A value stored in a checkpoint's `hyper_parameters` dict. -/
inductive HPVal
  | s (v : String)
  | n (v : ℤ)
  | b (v : Bool)
deriving DecidableEq

/-- A `hyper_parameters` dict, as an ordered association list. -/
abbrev HParams := List (String × HPVal)

/-- Dict lookup: the value at the first (unique) occurrence of the key. -/
def hpLookup (hp : HParams) (k : String) : Option HPVal :=
  (hp.find? fun p => p.1 == k).map Prod.snd

/-- Python `key in dict`. -/
def hpContains (hp : HParams) (k : String) : Bool :=
  (hpLookup hp k).isSome

/-- Python `dict.pop(key)`: the value and the dict without that key;
`none` models the `KeyError` on a missing key. -/
def hpPop (hp : HParams) (k : String) : Option (HPVal × HParams) :=
  match hpLookup hp k with
  | none => none
  | some v => some (v, hp.filter fun p => !(p.1 == k))

/-- Python `dict[key] = value`: replaces in place when the key exists,
appends otherwise. -/
def hpSet (hp : HParams) (k : String) (v : HPVal) : HParams :=
  if hpContains hp k then hp.map fun p => if p.1 == k then (k, v) else p
  else hp ++ [(k, v)]

/-- eval.py line 124: the keys kept by the pruning loop,
`'model_name num_classes model_weights model_freeze loss_function
loss_kwargs optimizer optimizer_kwargs'.split()`. -/
def expectedHPKeys : List String :=
  ["model_name", "num_classes", "model_weights", "model_freeze",
   "loss_function", "loss_kwargs", "optimizer", "optimizer_kwargs"]

/-- eval.py lines 120-125: when `model_name` is absent, rename `model` to
`model_name` and `weights` to `model_weights`, then drop every key not in
`expectedHPKeys`; when `model_name` is present the dict is left untouched. -/
def fixupHyperParameters (hp : HParams) : Except PyErr HParams :=
  if hpContains hp "model_name" then .ok hp
  else
    match hpPop hp "model" with
    | none => .error .keyError
    | some (mv, hp1) =>
      match hpPop (hpSet hp1 "model_name" mv) "weights" with
      | none => .error .keyError
      | some (wv, hp3) =>
        .ok ((hpSet hp3 "model_weights" wv).filter fun p => expectedHPKeys.contains p.1)

/-- A raw checkpoint as loaded by `torch.load`; the state dict is abstract. -/
structure TorchCheckpoint where
  hyper_parameters : HParams
  state_dict : ℕ
deriving DecidableEq

/-- A `MulticlassClassifier` lightning module as observable through
`load_model`: its hyperparameters, its inner `.model`, and the state dict
loaded into it (if any). -/
structure ClassifierModule where
  hparams : HParams
  model : ℕ
  loaded_state_dict : Option ℕ
deriving DecidableEq

/-- The framework operations `load_model` delegates to; inner models are
abstracted to identifiers. -/
structure EvalFramework where
  loadFromCheckpoint : String → Except PyErr ClassifierModule
  torchLoad : String → TorchCheckpoint
  classifierModelOf : HParams → ℕ
  getModelResize : HPVal → ℕ

/-- torch dtype (only `torch.float32` appears, eval.py line 134). -/
inductive DType
  | float32
deriving DecidableEq

/-- A torchvision v2 base transform (eval.py line 135). -/
inductive ImgTransform
  | resize (h w : ℕ)
  | toImage
  | toDtype (d : DType) (scale : Bool)
deriving DecidableEq

/-- eval.py lines 115-128: try `load_from_checkpoint`; on any exception,
`torch.load` the checkpoint, fix up its hyperparameters, reconstruct the
classifier module from them and load its state dict. -/
def load_checkpoint_module (fw : EvalFramework) (ckpt_path : String) :
    Except PyErr ClassifierModule :=
  match fw.loadFromCheckpoint ckpt_path with
  | .ok m => .ok m
  | .error _ =>
    match fixupHyperParameters (fw.torchLoad ckpt_path).hyper_parameters with
    | .error e => .error e
    | .ok hp => .ok ⟨hp, fw.classifierModelOf hp, some (fw.torchLoad ckpt_path).state_dict⟩

/-- eval.py lines 105-137: `load_model` — the loaded module's inner model
together with the base transforms for its `model_name`. -/
def load_model (fw : EvalFramework) (ckpt_path : String) :
    Except PyErr (ℕ × List ImgTransform) :=
  match load_checkpoint_module fw ckpt_path with
  | .error e => .error e
  | .ok m =>
    match hpLookup m.hparams "model_name" with
    | none => .error .keyError
    | some mn =>
      .ok (m.model,
        [.resize (fw.getModelResize mn) (fw.getModelResize mn), .toImage,
         .toDtype .float32 true])

lemma hpLookup_filter_keep (l : HParams) (f : String × HPVal → Bool) (k : String)
    (h : ∀ p ∈ l, p.1 = k → f p = true) :
    hpLookup (l.filter f) k = hpLookup l k := by
  induction l with
  | nil => rfl
  | cons p t ih =>
    have ht : ∀ q ∈ t, q.1 = k → f q = true := fun q hq => h q (List.mem_cons_of_mem _ hq)
    by_cases hpk : p.1 = k
    · have hf : f p = true := h p (List.mem_cons_self _ _) hpk
      rw [List.filter_cons_of_pos hf]
      unfold hpLookup
      rw [List.find?_cons_of_pos _ (by simp [hpk]), List.find?_cons_of_pos _ (by simp [hpk])]
    · cases hf : f p
      · rw [List.filter_cons_of_neg (by simp [hf])]
        unfold hpLookup at ih ⊢
        rw [List.find?_cons_of_neg _ (by simp [hpk])]
        exact ih ht
      · rw [List.filter_cons_of_pos hf]
        unfold hpLookup at ih ⊢
        rw [List.find?_cons_of_neg _ (by simp [hpk]), List.find?_cons_of_neg _ (by simp [hpk])]
        exact ih ht

lemma hpLookup_append (l₁ l₂ : HParams) (k : String) :
    hpLookup (l₁ ++ l₂) k = (hpLookup l₁ k).or (hpLookup l₂ k) := by
  unfold hpLookup
  rw [List.find?_append]
  cases l₁.find? fun p => p.1 == k <;> simp

lemma hpLookup_nil (k : String) : hpLookup [] k = none := rfl

lemma hpLookup_singleton_ne (k k' : String) (v : HPVal) (h : k' ≠ k) :
    hpLookup [(k', v)] k = none := by
  unfold hpLookup
  rw [List.find?_cons_of_neg _ (by simp [h])]
  rfl

lemma hpLookup_singleton_eq (k : String) (v : HPVal) :
    hpLookup [(k, v)] k = some v := by
  unfold hpLookup
  rw [List.find?_cons_of_pos _ (by simp)]
  rfl

lemma fixup_spec (H : HParams) (mv wv : HPVal)
    (hname : hpLookup H "model_name" = none)
    (hmw : hpLookup H "model_weights" = none)
    (hm : hpLookup H "model" = some mv)
    (hw : hpLookup H "weights" = some wv) :
    ∃ hp, fixupHyperParameters H = .ok hp ∧
      hpLookup hp "model_name" = some mv ∧
      hpLookup hp "model_weights" = some wv ∧
      ∀ p ∈ hp, p.1 ∈ expectedHPKeys := by
  have hnameC : hpContains H "model_name" = false := by
    rw [hpContains, hname]
    rfl
  have hpop1 : hpPop H "model" = some (mv, H.filter fun p => !(p.1 == "model")) := by
    rw [hpPop, hm]
  set H1 : HParams := H.filter fun p => !(p.1 == "model") with hH1def
  have hH1name : hpLookup H1 "model_name" = none := by
    rw [hH1def, hpLookup_filter_keep]
    · exact hname
    · intro p hp hpk
      show (!(p.1 == "model")) = true
      rw [hpk]
      rfl
  have hH1w : hpLookup H1 "weights" = some wv := by
    rw [hH1def, hpLookup_filter_keep]
    · exact hw
    · intro p hp hpk
      show (!(p.1 == "model")) = true
      rw [hpk]
      rfl
  have hH1mw : hpLookup H1 "model_weights" = none := by
    rw [hH1def, hpLookup_filter_keep]
    · exact hmw
    · intro p hp hpk
      show (!(p.1 == "model")) = true
      rw [hpk]
      rfl
  have hset1 : hpSet H1 "model_name" mv = H1 ++ [("model_name", mv)] := by
    rw [hpSet, hpContains, hH1name]
    rfl
  have hp2w : hpLookup (H1 ++ [("model_name", mv)]) "weights" = some wv := by
    rw [hpLookup_append, hH1w]
    rfl
  have hpop2 : hpPop (H1 ++ [("model_name", mv)]) "weights" =
      some (wv, (H1 ++ [("model_name", mv)]).filter fun p => !(p.1 == "weights")) := by
    rw [hpPop, hp2w]
  have hfilter2 : ((H1 ++ [("model_name", mv)]).filter fun p => !(p.1 == "weights")) =
      (H1.filter fun p => !(p.1 == "weights")) ++ [("model_name", mv)] := by
    rw [List.filter_append]
    rfl
  set H2 : HParams := H1.filter fun p => !(p.1 == "weights") with hH2def
  have hH2mw : hpLookup H2 "model_weights" = none := by
    rw [hH2def, hpLookup_filter_keep]
    · exact hH1mw
    · intro p hp hpk
      show (!(p.1 == "weights")) = true
      rw [hpk]
      rfl
  have hp3mw : hpLookup (H2 ++ [("model_name", mv)]) "model_weights" = none := by
    rw [hpLookup_append, hH2mw, hpLookup_singleton_ne]
    · rfl
    · decide
  have hset2 : hpSet (H2 ++ [("model_name", mv)]) "model_weights" wv =
      (H2 ++ [("model_name", mv)]) ++ [("model_weights", wv)] := by
    rw [hpSet, hpContains, hp3mw]
    rfl
  have hH2name : hpLookup H2 "model_name" = none := by
    rw [hH2def, hpLookup_filter_keep]
    · exact hH1name
    · intro p hp hpk
      show (!(p.1 == "weights")) = true
      rw [hpk]
      rfl
  refine ⟨(((H2 ++ [("model_name", mv)]) ++ [("model_weights", wv)]).filter
      fun p => expectedHPKeys.contains p.1), ?_, ?_, ?_, ?_⟩
  · rw [fixupHyperParameters, if_neg (by rw [hnameC]; exact Bool.false_ne_true), hpop1]
    dsimp only
    rw [hset1, hpop2]
    dsimp only
    rw [hfilter2, hset2]
  · rw [hpLookup_filter_keep]
    · rw [hpLookup_append, hpLookup_append, hH2name, hpLookup_singleton_eq]
      rfl
    · intro p hp hpk
      show (expectedHPKeys.contains p.1) = true
      rw [hpk]
      rfl
  · rw [hpLookup_filter_keep]
    · rw [hpLookup_append, hpLookup_append, hH2mw, hpLookup_singleton_ne _ _ _ (by decide),
        hpLookup_singleton_eq]
      rfl
    · intro p hp hpk
      show (expectedHPKeys.contains p.1) = true
      rw [hpk]
      rfl
  · intro p hp
    have hmem := (List.mem_filter.mp hp).2
    simpa using hmem

/-- Claim C7: when `load_from_checkpoint` raises, `load_model` falls back
to `torch.load`, renames `model` to `model_name` and `weights` to
`model_weights` (the `model_name` key being absent) and prunes the
hyperparameters to the expected key set, reconstructs the classifier
module from them, loads its state dict, and returns the inner model with
the resize/to-image/to-dtype base transforms for that model. -/
theorem load_model_fallback_reconstructs (fw : EvalFramework) (ckpt_path : String)
    (err : PyErr) (mv wv : HPVal)
    (hload : fw.loadFromCheckpoint ckpt_path = .error err)
    (hname : hpLookup (fw.torchLoad ckpt_path).hyper_parameters "model_name" = none)
    (hmw : hpLookup (fw.torchLoad ckpt_path).hyper_parameters "model_weights" = none)
    (hm : hpLookup (fw.torchLoad ckpt_path).hyper_parameters "model" = some mv)
    (hw : hpLookup (fw.torchLoad ckpt_path).hyper_parameters "weights" = some wv) :
    ∃ hp, fixupHyperParameters (fw.torchLoad ckpt_path).hyper_parameters = .ok hp ∧
      hpLookup hp "model_name" = some mv ∧
      hpLookup hp "model_weights" = some wv ∧
      (∀ p ∈ hp, p.1 ∈ expectedHPKeys) ∧
      load_checkpoint_module fw ckpt_path =
        .ok ⟨hp, fw.classifierModelOf hp, some (fw.torchLoad ckpt_path).state_dict⟩ ∧
      load_model fw ckpt_path = .ok (fw.classifierModelOf hp,
        [.resize (fw.getModelResize mv) (fw.getModelResize mv), .toImage,
         .toDtype .float32 true]) := by
  obtain ⟨hp, hfix, hmn, hmw2, hkeys⟩ := fixup_spec _ mv wv hname hmw hm hw
  have hmod : load_checkpoint_module fw ckpt_path =
      .ok ⟨hp, fw.classifierModelOf hp, some (fw.torchLoad ckpt_path).state_dict⟩ := by
    rw [load_checkpoint_module, hload]
    dsimp only
    rw [hfix]
  refine ⟨hp, hfix, hmn, hmw2, hkeys, hmod, ?_⟩
  rw [load_model, hmod]
  dsimp only
  rw [hmn]

/-- A concrete legacy checkpoint whose hyperparameters use the old `model`
and `weights` key names and carry an extra key. -/
def sampleCheckpoint : TorchCheckpoint :=
  { hyper_parameters := [("model", .s "resnet18"), ("weights", .s "DEFAULT"),
      ("num_classes", .n 5), ("lr", .n 3)],
    state_dict := 7 }

/-- A concrete framework whose `load_from_checkpoint` always raises. -/
def sampleFramework : EvalFramework :=
  { loadFromCheckpoint := fun _ => .error .runtimeError,
    torchLoad := fun _ => sampleCheckpoint,
    classifierModelOf := fun hp => hp.length,
    getModelResize := fun _ => 299 }

/-- Witness for claim C7 at `sampleFramework` and `sampleCheckpoint`. -/
theorem load_model_fallback_reconstructs_instance :
    ∃ hp,
      fixupHyperParameters (sampleFramework.torchLoad "m.ckpt").hyper_parameters = .ok hp ∧
      hpLookup hp "model_name" = some (.s "resnet18") ∧
      hpLookup hp "model_weights" = some (.s "DEFAULT") ∧
      (∀ p ∈ hp, p.1 ∈ expectedHPKeys) ∧
      load_checkpoint_module sampleFramework "m.ckpt" =
        .ok ⟨hp, sampleFramework.classifierModelOf hp,
          some (sampleFramework.torchLoad "m.ckpt").state_dict⟩ ∧
      load_model sampleFramework "m.ckpt" = .ok (sampleFramework.classifierModelOf hp,
        [.resize (sampleFramework.getModelResize (.s "resnet18"))
            (sampleFramework.getModelResize (.s "resnet18")), .toImage,
         .toDtype .float32 true]) :=
  load_model_fallback_reconstructs sampleFramework "m.ckpt" .runtimeError
    (.s "resnet18") (.s "DEFAULT") rfl rfl rfl rfl rfl

end Dojo
